import Mathlib

/-!
Verification of the geofenced classroom attendance tracker.

The repository ships the browser-side JavaScript (src/unnamed/part_000 ..
part_003, src/static/main.js) and the PostgreSQL setup scripts
(src/database_setup.sql plus the schema snapshots embedded in
src/unnamed/part_003).  The Flask backend that implements SessionStore and
AttendanceValidator is not part of the repository, so those operations are
modelled from the specification and marked as such in their doc comments.
Everything else below is a direct shallow embedding of the shipped sources:
GeoMath's haversine from src/unnamed/part_002 line 264, the table
constraints from the SQL schemas, the client-side geofence pre-check and the
canvas fingerprint from src/unnamed/part_003.
-/

namespace Attendance

open Real

/-! ## GeoMath: haversine distance (src/unnamed/part_002, line 264) -/

/-- Two-argument arctangent with the semantics of JavaScript's
Math.atan2(y, x): the angle of the point (x, y) in (-pi, pi]. -/
noncomputable def atan2 (y x : ℝ) : ℝ :=
  if 0 < x then arctan (y / x)
  else if x < 0 then
    (if 0 ≤ y then arctan (y / x) + π else arctan (y / x) - π)
  else
    (if 0 < y then π / 2 else if y < 0 then -(π / 2) else 0)

/-- Shallow embedding of haversineDistance from src/unnamed/part_002,
line 264: R = 6371e3; angles converted from degrees; a from the two squared
half-angle sines; c = 2 * atan2(sqrt a, sqrt (1 - a)); result R * c. -/
noncomputable def haversineDistance (lat1 lon1 lat2 lon2 : ℝ) : ℝ :=
  let R : ℝ := 6371e3
  let φ1 := lat1 * π / 180
  let φ2 := lat2 * π / 180
  let Δφ := (lat2 - lat1) * π / 180
  let Δlam := (lon2 - lon1) * π / 180
  let a := sin (Δφ / 2) * sin (Δφ / 2) + cos φ1 * cos φ2 * sin (Δlam / 2) * sin (Δlam / 2)
  let c := 2 * atan2 (Real.sqrt a) (Real.sqrt (1 - a))
  R * c

/-- The haversine great-circle formula as the specification words it
(spec section 4.1): distance = 2 R arcsin (sqrt a) with Earth radius
R = 6,371,000 m and a the usual haversine of the angular separation. -/
noncomputable def specGreatCircleDistance (lat1 lon1 lat2 lon2 : ℝ) : ℝ :=
  let R : ℝ := 6371000
  let φ1 := lat1 * π / 180
  let φ2 := lat2 * π / 180
  let Δφ := (lat2 - lat1) * π / 180
  let Δlam := (lon2 - lon1) * π / 180
  let a := sin (Δφ / 2) ^ 2 + cos φ1 * cos φ2 * sin (Δlam / 2) ^ 2
  R * (2 * arcsin (Real.sqrt a))

lemma atan2_sqrt_eq_arcsin (a : ℝ) :
    atan2 (Real.sqrt a) (Real.sqrt (1 - a)) = arcsin (Real.sqrt a) := by
  rcases le_or_lt a 0 with ha | ha
  · have hy : Real.sqrt a = 0 := Real.sqrt_eq_zero'.mpr ha
    have hx : 0 < Real.sqrt (1 - a) := Real.sqrt_pos.mpr (by linarith)
    rw [atan2, if_pos hx, hy, zero_div, arctan_zero, arcsin_zero]
  · rcases lt_or_le a 1 with h1 | h1
    · have hx : 0 < Real.sqrt (1 - a) := Real.sqrt_pos.mpr (by linarith)
      have hmem : Real.sqrt a ∈ Set.Ioo (-(1 : ℝ)) 1 := by
        constructor
        · have := Real.sqrt_nonneg a; linarith
        · have h2 : Real.sqrt a < Real.sqrt 1 := Real.sqrt_lt_sqrt (le_of_lt ha) h1
          simpa [Real.sqrt_one] using h2
      rw [atan2, if_pos hx, arcsin_eq_arctan hmem, Real.sq_sqrt (le_of_lt ha)]
    · have hx0 : Real.sqrt (1 - a) = 0 := Real.sqrt_eq_zero'.mpr (by linarith)
      have hy : 0 < Real.sqrt a := Real.sqrt_pos.mpr (by linarith)
      have hy1 : 1 ≤ Real.sqrt a := by
        have h2 : Real.sqrt 1 ≤ Real.sqrt a := Real.sqrt_le_sqrt h1
        simpa [Real.sqrt_one] using h2
      rw [atan2, hx0, if_neg (lt_irrefl (0 : ℝ)), if_neg (lt_irrefl (0 : ℝ)),
        if_pos hy, arcsin_of_one_le hy1]

lemma haversine_eq_specGreatCircle (lat1 lon1 lat2 lon2 : ℝ) :
    haversineDistance lat1 lon1 lat2 lon2 = specGreatCircleDistance lat1 lon1 lat2 lon2 := by
  simp only [haversineDistance, specGreatCircleDistance]
  rw [show Real.sin ((lat2 - lat1) * π / 180 / 2) * Real.sin ((lat2 - lat1) * π / 180 / 2) +
      Real.cos (lat1 * π / 180) * Real.cos (lat2 * π / 180) *
        Real.sin ((lon2 - lon1) * π / 180 / 2) * Real.sin ((lon2 - lon1) * π / 180 / 2) =
      Real.sin ((lat2 - lat1) * π / 180 / 2) ^ 2 +
      Real.cos (lat1 * π / 180) * Real.cos (lat2 * π / 180) *
        Real.sin ((lon2 - lon1) * π / 180 / 2) ^ 2 from by ring]
  rw [atan2_sqrt_eq_arcsin]
  norm_num

lemma haversine_zero_self : haversineDistance 0 0 0 0 = 0 := by
  simp only [haversineDistance]
  norm_num [atan2, Real.sqrt_one, zero_lt_one]

lemma haversine_one_degree_equator :
    haversineDistance 0 0 0 1 = 6371000 * (2 * (π / 360)) := by
  have hpi := Real.pi_pos
  have hθpos : (0 : ℝ) < π / 360 := by positivity
  have hθlt : π / 360 < π / 2 := by linarith
  have hs : 0 ≤ Real.sin (π / 360) :=
    Real.sin_nonneg_of_nonneg_of_le_pi (le_of_lt hθpos) (by linarith)
  have hc : 0 < Real.cos (π / 360) :=
    Real.cos_pos_of_mem_Ioo ⟨by linarith, hθlt⟩
  simp only [haversineDistance]
  rw [show ((0 : ℝ) - 0) * π / 180 / 2 = 0 from by ring,
    show ((0 : ℝ) * π / 180) = 0 from by ring,
    show ((1 : ℝ) - 0) * π / 180 / 2 = π / 360 from by ring]
  rw [Real.sin_zero, Real.cos_zero]
  rw [show (0 : ℝ) * 0 + 1 * 1 * Real.sin (π / 360) * Real.sin (π / 360) =
      Real.sin (π / 360) ^ 2 from by ring]
  rw [show (1 : ℝ) - Real.sin (π / 360) ^ 2 = Real.cos (π / 360) ^ 2 from
    (Real.cos_sq' _).symm]
  rw [Real.sqrt_sq hs, Real.sqrt_sq (le_of_lt hc)]
  rw [atan2, if_pos hc, ← Real.tan_eq_sin_div_cos,
    Real.arctan_tan (by linarith) hθlt]
  norm_num

/-- C3: haversineDistance coincides with the haversine great-circle formula
with Earth radius 6,371,000 m on all real inputs, is 0 on two identical
points, and is within 1 m of 111,195 m for one degree of longitude at the
equator. -/
theorem C3_distance_is_haversine :
    (∀ lat1 lon1 lat2 lon2 : ℝ,
      haversineDistance lat1 lon1 lat2 lon2 = specGreatCircleDistance lat1 lon1 lat2 lon2)
    ∧ haversineDistance 0 0 0 0 = 0
    ∧ |haversineDistance 0 0 0 1 - 111195| < 1 := by
  refine ⟨haversine_eq_specGreatCircle, haversine_zero_self, ?_⟩
  rw [haversine_one_degree_equator, abs_lt]
  constructor <;> nlinarith [Real.pi_gt_d6, Real.pi_lt_d6]

/-! ## Data model (spec section 3, SQL schemas in src/) -/

/-- Row of attendance_sessions (src/database_setup.sql lines 41-50,
src/unnamed/part_003 lines 890-899). -/
structure Session where
  id : Nat
  class_id : Nat
  token : String
  start_time : Int
  end_time : Int
  is_active : Bool
deriving DecidableEq, Repr

/-- Row of classes (src/database_setup.sql lines 30-38). -/
structure ClassGeofence where
  id : Nat
  geofence_lat : Rat
  geofence_lon : Rat
  geofence_radius : Rat
deriving DecidableEq, Repr

/-- Row of students (src/database_setup.sql lines 22-27). -/
structure Student where
  id : Nat
  enrollment_no : String
deriving DecidableEq, Repr

/-- Row of attendance_records (src/database_setup.sql lines 53-61,
src/unnamed/part_003 lines 902-911). -/
structure AttendanceRecord where
  session_id : Nat
  student_id : Nat
  timestamp : Int
  latitude : Rat
  longitude : Rat
deriving DecidableEq, Repr

/-- Row of session_device_fingerprints (src/unnamed/part_003
lines 914-921). -/
structure FingerprintLock where
  session_id : Nat
  student_id : Nat
  fingerprint : String
deriving DecidableEq, Repr

/-- Row of daily_attendance_ips (src/database_setup.sql lines 64-69,
src/unnamed/part_003 lines 1080-1085). -/
structure DailyIp where
  ip_address : String
  date : Int
deriving DecidableEq, Repr

/-- The persisted state the validator consults: the three mutable tables. -/
structure StoreState where
  sessions : List Session
  records : List AttendanceRecord
  locks : List FingerprintLock
deriving DecidableEq, Repr

/-- The typed rejection outcomes of the validation pipeline
(spec section 7). -/
inductive RejectionReason where
  | SessionNotFound
  | SessionExpired
  | StudentNotFound
  | AlreadyMarked
  | OutOfRange (distance : Rat)
  | DeviceAlreadyUsed
  | StudentDeviceMismatch
deriving DecidableEq, Repr

/-- The SessionStore failure of spec section 4.2. -/
inductive SessionError where
  | ConflictError
deriving DecidableEq, Repr

instance {ε α : Type} [DecidableEq ε] [DecidableEq α] :
    DecidableEq (Except ε α) := fun a b =>
  match a, b with
  | .ok x, .ok y =>
    if h : x = y then isTrue (by rw [h])
    else isFalse (fun hc => h (Except.ok.inj hc))
  | .error x, .error y =>
    if h : x = y then isTrue (by rw [h])
    else isFalse (fun hc => h (Except.error.inj hc))
  | .ok _, .error _ => isFalse (fun hc => Except.noConfusion hc)
  | .error _, .ok _ => isFalse (fun hc => Except.noConfusion hc)

/-! ## Persistence layer: constraint-backed inserts from the SQL schemas -/

/-- Whether attendance_records already holds a row with this
(session_id, student_id) pair. -/
def pairPresent (recs : List AttendanceRecord) (sid stid : Nat) : Bool :=
  recs.any (fun r => r.session_id == sid && r.student_id == stid)

/-- Insert into attendance_records under the schema embedded in
src/unnamed/part_003 (lines 902-911): UNIQUE (session_id, student_id)
makes a duplicate insert fail, and the failure is surfaced as
AlreadyMarked (spec section 4.3 step 6). -/
def insertRecord (recs : List AttendanceRecord) (r : AttendanceRecord) :
    Except RejectionReason (List AttendanceRecord) :=
  if pairPresent recs r.session_id r.student_id then .error .AlreadyMarked
  else .ok (r :: recs)

/-- Insert into attendance_records under the schema of
src/database_setup.sql (lines 53-61): that table declares no
UNIQUE (session_id, student_id), so every insert succeeds. -/
def insertRecordSetupSql (recs : List AttendanceRecord)
    (r : AttendanceRecord) : List AttendanceRecord :=
  r :: recs

/-- Whether session_device_fingerprints holds a row with this
(session_id, student_id) pair. -/
def lockStudentTaken (locks : List FingerprintLock) (sid stid : Nat) : Bool :=
  locks.any (fun l => l.session_id == sid && l.student_id == stid)

/-- Whether session_device_fingerprints holds a row with this
(session_id, fingerprint) pair. -/
def lockFingerprintTaken (locks : List FingerprintLock) (sid : Nat)
    (fp : String) : Bool :=
  locks.any (fun l => l.session_id == sid && l.fingerprint == fp)

/-- Insert into session_device_fingerprints (src/unnamed/part_003
lines 914-921): UNIQUE (session_id, student_id) and
UNIQUE (session_id, fingerprint) reject the insert when either pair is
already present. -/
def insertLock (locks : List FingerprintLock) (l : FingerprintLock) :
    Option (List FingerprintLock) :=
  if lockStudentTaken locks l.session_id l.student_id
      || lockFingerprintTaken locks l.session_id l.fingerprint then none
  else some (l :: locks)

/-- Whether daily_attendance_ips holds a row with this (ip_address, date)
pair. -/
def ipPresent (rows : List DailyIp) (ip : String) (d : Int) : Bool :=
  rows.any (fun r => r.ip_address == ip && r.date == d)

/-- Insert into daily_attendance_ips (src/database_setup.sql lines 64-69):
UNIQUE (ip_address, date) rejects a second row for the same IP address on
the same calendar day. -/
def insertDailyIp (rows : List DailyIp) (ip : String) (d : Int) :
    Option (List DailyIp) :=
  if ipPresent rows ip d then none
  else some ({ ip_address := ip, date := d } :: rows)

/-! ## SessionStore (modelled from the spec) -/

/-- Modelled from the spec: the Flask backend implementing
SessionStore.getActiveSession (spec section 4.2) is not under src/.
Returns the session of the class with is_active = true AND end_time > now;
an expired-but-not-ended session is treated as inactive (lazy expiry). -/
def getActiveSession (sessions : List Session) (cid : Nat) (now : Int) :
    Option Session :=
  sessions.find? (fun s => s.class_id == cid && s.is_active && now < s.end_time)

/-- Modelled from the spec: SessionStore.startSession (spec section 4.2) is
not under src/.  Fails with ConflictError when an active, non-expired
session exists for the class; otherwise creates a session with
start_time = now, end_time = now + duration, is_active = true.  The opaque
token generator and the row id allocator are abstracted as the token and
newId arguments. -/
def startSession (sessions : List Session) (cid : Nat) (now duration : Int)
    (newId : Nat) (token : String) :
    Except SessionError (Session × List Session) :=
  match getActiveSession sessions cid now with
  | some _ => .error .ConflictError
  | none =>
    let s : Session :=
      { id := newId, class_id := cid, token := token,
        start_time := now, end_time := now + duration, is_active := true }
    .ok (s, s :: sessions)

/-- The effect of endSession on one attendance_sessions row: the row with
the given id gets is_active = false, every other row is untouched. -/
def endOne (sid : Nat) (s : Session) : Session :=
  if s.id == sid then { s with is_active := false } else s

/-- Modelled from the spec: SessionStore.endSession (spec section 4.2) is
not under src/.  Sets is_active = false on the addressed session
immediately, regardless of remaining time; total, so an already-ended
session is a no-op rather than an error. -/
def endSession (sessions : List Session) (sid : Nat) : List Session :=
  sessions.map (endOne sid)

/-! ## AttendanceValidator (modelled from the spec) -/

/-- Commit stage (spec section 4.3 step 6): insert the AttendanceRecord
and, when applicable, the fingerprint lock; a unique-constraint violation
at insert time is translated to AlreadyMarked. -/
def commitRecord (st : StoreState) (sid stid : Nat) (lat lon : Rat)
    (now : Int) (lock : Option FingerprintLock) :
    Except RejectionReason (AttendanceRecord × StoreState) :=
  let r : AttendanceRecord :=
    { session_id := sid, student_id := stid, timestamp := now,
      latitude := lat, longitude := lon }
  match insertRecord st.records r with
  | .error e => .error e
  | .ok recs =>
    match lock with
    | none => .ok (r, { st with records := recs })
    | some l =>
      match insertLock st.locks l with
      | none => .error .DeviceAlreadyUsed
      | some locks => .ok (r, { st with records := recs, locks := locks })

/-- Modelled from the spec: AttendanceValidator.validateAndRecord
(spec section 4.3) is not under src/.  The pipeline short-circuits in the
fixed order session resolution, student resolution, duplicate check,
geofence check, optional device check, commit.  GeoMath.distanceMeters is
abstracted as the distFn argument; the enrollment-number normalization —
to uppercase, spec section 4.3 step 2, matching the client-side
trim().toUpperCase() in src/unnamed/part_002 line 56 — is abstracted as
the normalize argument. -/
def validateAndRecord (distFn : Rat → Rat → Rat → Rat → Rat)
    (normalize : String → String)
    (deviceCheckEnabled : Bool) (roster : List Student)
    (cls : ClassGeofence) (st : StoreState) (sid : Nat)
    (enrollment : String) (lat lon : Rat) (fp : Option String) (now : Int) :
    Except RejectionReason (AttendanceRecord × StoreState) :=
  match st.sessions.find? (fun s => s.id == sid) with
  | none => .error .SessionNotFound
  | some s =>
    if s.end_time ≤ now ∨ s.is_active = false then .error .SessionExpired
    else
      match roster.find? (fun stu => stu.enrollment_no == normalize enrollment) with
      | none => .error .StudentNotFound
      | some stu =>
        if pairPresent st.records s.id stu.id then .error .AlreadyMarked
        else
          let d := distFn lat lon cls.geofence_lat cls.geofence_lon
          if cls.geofence_radius < d then .error (.OutOfRange d)
          else
            match fp, deviceCheckEnabled with
            | some f, true =>
              if st.locks.any (fun l =>
                  l.session_id == s.id && l.fingerprint == f
                    && l.student_id != stu.id) then
                .error .DeviceAlreadyUsed
              else if st.locks.any (fun l =>
                  l.session_id == s.id && l.student_id == stu.id
                    && l.fingerprint != f) then
                .error .StudentDeviceMismatch
              else
                commitRecord st s.id stu.id lat lon now
                  (some { session_id := s.id, student_id := stu.id,
                          fingerprint := f })
            | _, _ => commitRecord st s.id stu.id lat lon now none

/-! ## Client-side geofence pre-check and canvas fingerprint
(src/unnamed/part_003) -/

/-- Outcome of the page-load location check: either the attendance form is
shown, or an error message carrying the computed distance is shown. -/
inductive LoadCheckResult where
  | showForm
  | tooFar (distance : Rat)
deriving DecidableEq, Repr

/-- Decision of checkLocationOnLoad (src/unnamed/part_003 lines 42-67):
the form is shown when distance <= radius (inclusive), otherwise the
too-far message carries the computed distance. -/
def checkLocationOnLoad (distance radius : Rat) : LoadCheckResult :=
  if distance ≤ radius then .showForm else .tooFar distance

/-- One 2d-canvas drawing instruction, as issued by getCanvasFingerprint. -/
inductive CanvasOp where
  | setTextBaseline (v : String)
  | setFont (v : String)
  | setFillStyle (v : String)
  | fillRect (x y w h : Int)
  | fillText (text : String) (x y : Int)
deriving DecidableEq, Repr

/-- The fixed drawing sequence of getCanvasFingerprint
(src/unnamed/part_003 lines 159-173), drawn onto a fresh canvas. -/
def fingerprintCanvasOps : List CanvasOp :=
  [ .setTextBaseline "top",
    .setFont "14px Arial",
    .setTextBaseline "alphabetic",
    .setFillStyle "#f60",
    .fillRect 125 1 62 20,
    .setFillStyle "#069",
    .fillText "Browser-ID: Ritik Attendance App" 2 15,
    .setFillStyle "rgba(102, 204, 0, 0.7)",
    .fillText "Browser-ID: Ritik Attendance App" 4 17 ]

/-- Shallow embedding of getCanvasFingerprint (src/unnamed/part_003
lines 159-173): it takes no parameters; the rendering environment
(canvas.toDataURL as a function of the ops drawn on a fresh canvas) is the
only thing its return value depends on. -/
def getCanvasFingerprint (render : List CanvasOp → String) : String :=
  render fingerprintCanvasOps

/-- The form fields posted to /mark_attendance by handleAttendanceSubmit
(src/unnamed/part_003 lines 69-125). -/
structure SubmissionForm where
  enrollment_no : String
  session_id : Nat
  latitude : Rat
  longitude : Rat
  device_fingerprint : String
deriving DecidableEq, Repr

/-- The form built by handleAttendanceSubmit (src/unnamed/part_003
lines 69-125): visitorId = getCanvasFingerprint() is computed before the
geolocation callback and sent as device_fingerprint. -/
def buildSubmissionForm (render : List CanvasOp → String)
    (enrollment : String) (sid : Nat) (lat lon : Rat) : SubmissionForm :=
  { enrollment_no := enrollment.trim, session_id := sid,
    latitude := lat, longitude := lon,
    device_fingerprint := getCanvasFingerprint render }

/-! ## Reachability of the constraint-guarded tables -/

/-- Number of attendance_records rows with the given
(session_id, student_id) pair. -/
def pairCount (recs : List AttendanceRecord) (sid stid : Nat) : Nat :=
  recs.countP (fun r => r.session_id == sid && r.student_id == stid)

/-- States of attendance_records reachable through the persistence layer of
the part_003 schema: the empty table, constraint-checked inserts, and row
removals (controller manual edit and the bulk day delete only ever remove
rows). -/
inductive RecordsReachable : List AttendanceRecord → Prop where
  | empty : RecordsReachable []
  | step {recs recs' : List AttendanceRecord} {r : AttendanceRecord} :
      RecordsReachable recs → insertRecord recs r = .ok recs' →
      RecordsReachable recs'
  | remove {recs : List AttendanceRecord} (p : AttendanceRecord → Bool) :
      RecordsReachable recs → RecordsReachable (recs.filter p)

/-- States of session_device_fingerprints reachable through its two unique
constraints: empty table, constraint-checked inserts, and row removals
(ON DELETE CASCADE only ever removes rows). -/
inductive LocksReachable : List FingerprintLock → Prop where
  | empty : LocksReachable []
  | step {locks locks' : List FingerprintLock} {l : FingerprintLock} :
      LocksReachable locks → insertLock locks l = some locks' →
      LocksReachable locks'
  | remove {locks : List FingerprintLock} (p : FingerprintLock → Bool) :
      LocksReachable locks → LocksReachable (locks.filter p)

/-- States of daily_attendance_ips reachable through its unique
constraint. -/
inductive IpsReachable : List DailyIp → Prop where
  | empty : IpsReachable []
  | step {rows rows' : List DailyIp} {ip : String} {d : Int} :
      IpsReachable rows → insertDailyIp rows ip d = some rows' →
      IpsReachable rows'
  | remove {rows : List DailyIp} (p : DailyIp → Bool) :
      IpsReachable rows → IpsReachable (rows.filter p)

/-! ## Generic list-counting helpers -/

lemma countP_filter_le {α : Type} (p q : α → Bool) (l : List α) :
    (l.filter q).countP p ≤ l.countP p := by
  induction l with
  | nil => simp
  | cons a t ih =>
    by_cases hq : q a
    · by_cases hpa : p a <;>
        simp [List.filter_cons, hq, List.countP_cons, hpa] <;> omega
    · by_cases hpa : p a <;>
        simp [List.filter_cons, hq, List.countP_cons, hpa] <;> omega

lemma countP_eq_zero_of_any_false {α : Type} (p : α → Bool) (l : List α)
    (h : l.any p = false) : l.countP p = 0 := by
  rw [List.countP_eq_zero]
  intro a ha hpa
  have h2 : l.any p = true := List.any_eq_true.mpr ⟨a, ha, hpa⟩
  rw [h] at h2
  exact Bool.false_ne_true h2

lemma countP_insert_le_one {α : Type} (p : α → Bool) (l : List α) (a : α)
    (h0 : p a = true → l.countP p = 0) (h1 : l.countP p ≤ 1) :
    (a :: l).countP p ≤ 1 := by
  by_cases h : p a = true
  · simp [List.countP_cons, h, h0 h]
  · simp [List.countP_cons, h]
    omega

lemma find?_isSome_iff {α : Type} (p : α → Bool) (l : List α) :
    (l.find? p).isSome = true ↔ ∃ x ∈ l, p x = true := by
  induction l with
  | nil => simp
  | cons a t ih =>
    by_cases h : p a = true
    · simp [List.find?_cons, h]
    · simp [List.find?_cons, h, ih]

lemma insertRecord_ok {recs recs' : List AttendanceRecord}
    {r : AttendanceRecord} (h : insertRecord recs r = .ok recs') :
    pairPresent recs r.session_id r.student_id = false ∧ recs' = r :: recs := by
  unfold insertRecord at h
  by_cases hp : pairPresent recs r.session_id r.student_id = true
  · simp [hp] at h
  · simp only [Bool.not_eq_true] at hp
    simp [hp] at h
    exact ⟨hp, h.symm⟩

lemma reachable_pairCount_le_one {recs : List AttendanceRecord}
    (h : RecordsReachable recs) (sid stid : Nat) :
    pairCount recs sid stid ≤ 1 := by
  induction h with
  | empty => simp [pairCount]
  | step hr hins ih =>
    obtain ⟨hguard, rfl⟩ := insertRecord_ok hins
    simp only [pairCount] at ih ⊢
    refine countP_insert_le_one _ _ _ ?_ ih
    intro hp
    obtain ⟨e1, e2⟩ : _ ∧ _ := by simpa [Bool.and_eq_true, beq_iff_eq] using hp
    subst e1; subst e2
    exact countP_eq_zero_of_any_false _ _ hguard
  | remove p hr ih =>
    exact le_trans (countP_filter_le _ _ _) ih

/-- Serialization of a burst of submissions: each passes through the
constraint-checked insert in turn (the order the database imposes on
concurrent identical submissions); returns the per-submission outcomes and
the final table. -/
def submitAll :
    List AttendanceRecord → List AttendanceRecord →
      List (Except RejectionReason Unit) × List AttendanceRecord
  | recs, [] => ([], recs)
  | recs, r :: rest =>
    match insertRecord recs r with
    | .ok recs' =>
      let p := submitAll recs' rest
      (.ok () :: p.1, p.2)
    | .error e =>
      let p := submitAll recs rest
      (.error e :: p.1, p.2)

/-- Whether one submission outcome is a success. -/
def isOkOutcome : Except RejectionReason Unit → Bool
  | .ok _ => true
  | .error _ => false

lemma submitAll_all_marked (sid stid : Nat) :
    ∀ (subs recs : List AttendanceRecord),
      pairPresent recs sid stid = true →
      (∀ r ∈ subs, r.session_id = sid ∧ r.student_id = stid) →
      (submitAll recs subs).1 =
        subs.map (fun _ => .error RejectionReason.AlreadyMarked) := by
  intro subs
  induction subs with
  | nil => intro recs _ _; simp [submitAll]
  | cons r rest ih =>
    intro recs hpresent hall
    obtain ⟨e1, e2⟩ := hall r (by simp)
    have hfail : insertRecord recs r = .error .AlreadyMarked := by
      unfold insertRecord
      rw [e1, e2, if_pos hpresent]
    simp only [submitAll, hfail, List.map_cons]
    rw [ih recs hpresent (fun q hq => hall q (by simp [hq]))]

/-- C1 as stated is false on the persistence layer declared by
src/database_setup.sql: its attendance_records table carries no
UNIQUE (session_id, student_id) constraint, so both of two identical
submissions insert successfully and the reachable state holds two records
for the pair (1, 2) — the duplicate insert is not rejected there. -/
theorem C1_counterexample :
    pairCount (insertRecordSetupSql (insertRecordSetupSql []
      { session_id := 1, student_id := 2, timestamp := 0,
        latitude := 0, longitude := 0 })
      { session_id := 1, student_id := 2, timestamp := 5,
        latitude := 0, longitude := 0 }) 1 2 = 2 := by
  decide

/-- C1 (amended): under the attendance_records schema embedded in
src/unnamed/part_003 (UNIQUE (session_id, student_id)), every reachable
state holds at most one record per (session_id, student_id) pair, and of
any non-empty burst of submissions with identical pair against a table not
yet holding that pair, exactly one succeeds and every other one receives
AlreadyMarked.  The standalone src/database_setup.sql schema omits that
constraint and does not reject the duplicate insert. -/
theorem C1_at_most_once :
    (∀ recs, RecordsReachable recs → ∀ sid stid, pairCount recs sid stid ≤ 1)
    ∧ (∀ (recs subs : List AttendanceRecord) (sid stid : Nat),
        pairPresent recs sid stid = false →
        (∀ r ∈ subs, r.session_id = sid ∧ r.student_id = stid) →
        subs ≠ [] →
        (submitAll recs subs).1.countP isOkOutcome = 1 ∧
          ∀ o ∈ (submitAll recs subs).1,
            o = Except.ok () ∨ o = Except.error RejectionReason.AlreadyMarked) := by
  constructor
  · intro recs h sid stid
    exact reachable_pairCount_le_one h sid stid
  · intro recs subs sid stid habsent hall hne
    match subs, hne with
    | r :: rest, _ =>
      obtain ⟨e1, e2⟩ := hall r (by simp)
      have hok : insertRecord recs r = .ok (r :: recs) := by
        unfold insertRecord
        rw [e1, e2, if_neg (by simp [habsent])]
      have hpresent : pairPresent (r :: recs) sid stid = true := by
        simp [pairPresent, e1, e2]
      have hrest : (submitAll (r :: recs) rest).1 =
          rest.map (fun _ => .error RejectionReason.AlreadyMarked) :=
        submitAll_all_marked sid stid rest (r :: recs) hpresent
          (fun q hq => hall q (by simp [hq]))
      have houts : (submitAll recs (r :: rest)).1 =
          .ok () :: rest.map (fun _ => .error RejectionReason.AlreadyMarked) := by
        simp only [submitAll, hok]
        rw [hrest]
      rw [houts]
      constructor
      · have hzero : (rest.map
            (fun _ => Except.error RejectionReason.AlreadyMarked)).countP
              isOkOutcome = 0 := by
          rw [List.countP_eq_zero]
          intro o ho
          obtain ⟨q, _, hq⟩ := List.mem_map.mp ho
          rw [← hq]
          simp [isOkOutcome]
        rw [List.countP_cons, hzero]
        simp [isOkOutcome]
      · intro o ho
        rcases List.mem_cons.mp ho with h1 | h1
        · exact Or.inl h1
        · obtain ⟨q, _, hq⟩ := List.mem_map.mp h1
          exact Or.inr hq.symm

/-- Witness for C1_at_most_once at a concrete input: the empty table, then
two identical submissions for the pair (1, 2); the invariant holds and the
outcomes are exactly one success and one AlreadyMarked. -/
theorem C1_at_most_once_witness :
    pairCount [] 1 2 ≤ 1 ∧
      ((submitAll []
          [{ session_id := 1, student_id := 2, timestamp := 0,
             latitude := 0, longitude := 0 },
           { session_id := 1, student_id := 2, timestamp := 5,
             latitude := 0, longitude := 0 }]).1.countP isOkOutcome = 1 ∧
        ∀ o ∈ (submitAll []
          [{ session_id := 1, student_id := 2, timestamp := 0,
             latitude := 0, longitude := 0 },
           { session_id := 1, student_id := 2, timestamp := 5,
             latitude := 0, longitude := 0 }]).1,
          o = Except.ok () ∨ o = Except.error RejectionReason.AlreadyMarked) :=
  ⟨C1_at_most_once.1 [] RecordsReachable.empty 1 2,
   C1_at_most_once.2 []
     [{ session_id := 1, student_id := 2, timestamp := 0,
        latitude := 0, longitude := 0 },
      { session_id := 1, student_id := 2, timestamp := 5,
        latitude := 0, longitude := 0 }] 1 2
     (by decide) (by decide) (by decide)⟩

/-! ## Stage lemmas for the validation pipeline -/

lemma vr_sessionNotFound (distFn : Rat → Rat → Rat → Rat → Rat)
    (normalize : String → String) (dce : Bool)
    (roster : List Student) (cls : ClassGeofence) (st : StoreState)
    (sid : Nat) (enrollment : String) (lat lon : Rat) (fp : Option String)
    (now : Int)
    (hfind : st.sessions.find? (fun s => s.id == sid) = none) :
    validateAndRecord distFn normalize dce roster cls st sid enrollment lat lon fp now =
      .error .SessionNotFound := by
  unfold validateAndRecord
  rw [hfind]

lemma vr_sessionExpired (distFn : Rat → Rat → Rat → Rat → Rat)
    (normalize : String → String) (dce : Bool)
    (roster : List Student) (cls : ClassGeofence) (st : StoreState)
    (sid : Nat) (enrollment : String) (lat lon : Rat) (fp : Option String)
    (now : Int) (s : Session)
    (hfind : st.sessions.find? (fun s => s.id == sid) = some s)
    (hexp : s.end_time ≤ now ∨ s.is_active = false) :
    validateAndRecord distFn normalize dce roster cls st sid enrollment lat lon fp now =
      .error .SessionExpired := by
  unfold validateAndRecord
  rw [hfind]
  dsimp only
  rw [if_pos hexp]

lemma vr_studentNotFound (distFn : Rat → Rat → Rat → Rat → Rat)
    (normalize : String → String) (dce : Bool)
    (roster : List Student) (cls : ClassGeofence) (st : StoreState)
    (sid : Nat) (enrollment : String) (lat lon : Rat) (fp : Option String)
    (now : Int) (s : Session)
    (hfind : st.sessions.find? (fun s => s.id == sid) = some s)
    (hlive : ¬(s.end_time ≤ now ∨ s.is_active = false))
    (hstu : roster.find? (fun stu => stu.enrollment_no == normalize enrollment) = none) :
    validateAndRecord distFn normalize dce roster cls st sid enrollment lat lon fp now =
      .error .StudentNotFound := by
  unfold validateAndRecord
  rw [hfind]
  dsimp only
  rw [if_neg hlive, hstu]

lemma vr_alreadyMarked (distFn : Rat → Rat → Rat → Rat → Rat)
    (normalize : String → String) (dce : Bool)
    (roster : List Student) (cls : ClassGeofence) (st : StoreState)
    (sid : Nat) (enrollment : String) (lat lon : Rat) (fp : Option String)
    (now : Int) (s : Session) (stu : Student)
    (hfind : st.sessions.find? (fun s => s.id == sid) = some s)
    (hlive : ¬(s.end_time ≤ now ∨ s.is_active = false))
    (hstu : roster.find? (fun stu => stu.enrollment_no == normalize enrollment) = some stu)
    (hpair : pairPresent st.records s.id stu.id = true) :
    validateAndRecord distFn normalize dce roster cls st sid enrollment lat lon fp now =
      .error .AlreadyMarked := by
  unfold validateAndRecord
  rw [hfind]
  dsimp only
  rw [if_neg hlive, hstu]
  dsimp only
  rw [if_pos hpair]

lemma vr_outOfRange (distFn : Rat → Rat → Rat → Rat → Rat)
    (normalize : String → String) (dce : Bool)
    (roster : List Student) (cls : ClassGeofence) (st : StoreState)
    (sid : Nat) (enrollment : String) (lat lon : Rat) (fp : Option String)
    (now : Int) (s : Session) (stu : Student)
    (hfind : st.sessions.find? (fun s => s.id == sid) = some s)
    (hlive : ¬(s.end_time ≤ now ∨ s.is_active = false))
    (hstu : roster.find? (fun stu => stu.enrollment_no == normalize enrollment) = some stu)
    (hpair : pairPresent st.records s.id stu.id = false)
    (hd : cls.geofence_radius < distFn lat lon cls.geofence_lat cls.geofence_lon) :
    validateAndRecord distFn normalize dce roster cls st sid enrollment lat lon fp now =
      .error (.OutOfRange (distFn lat lon cls.geofence_lat cls.geofence_lon)) := by
  unfold validateAndRecord
  rw [hfind]
  dsimp only
  rw [if_neg hlive, hstu]
  dsimp only
  rw [if_neg (by simp [hpair]), if_pos hd]

lemma vr_acceptNoFp (distFn : Rat → Rat → Rat → Rat → Rat)
    (normalize : String → String) (dce : Bool)
    (roster : List Student) (cls : ClassGeofence) (st : StoreState)
    (sid : Nat) (enrollment : String) (lat lon : Rat) (now : Int)
    (s : Session) (stu : Student)
    (hfind : st.sessions.find? (fun s => s.id == sid) = some s)
    (hlive : ¬(s.end_time ≤ now ∨ s.is_active = false))
    (hstu : roster.find? (fun stu => stu.enrollment_no == normalize enrollment) = some stu)
    (hpair : pairPresent st.records s.id stu.id = false)
    (hd : ¬(cls.geofence_radius < distFn lat lon cls.geofence_lat cls.geofence_lon)) :
    validateAndRecord distFn normalize dce roster cls st sid enrollment lat lon none now =
      .ok ({ session_id := s.id, student_id := stu.id, timestamp := now,
             latitude := lat, longitude := lon },
           { st with records :=
              { session_id := s.id, student_id := stu.id, timestamp := now,
                latitude := lat, longitude := lon } :: st.records }) := by
  unfold validateAndRecord
  rw [hfind]
  dsimp only
  rw [if_neg hlive, hstu]
  dsimp only
  rw [if_neg (by simp [hpair]), if_neg hd]
  unfold commitRecord insertRecord
  dsimp only
  rw [if_neg (by simp [hpair])]

lemma vr_deviceAlreadyUsed (distFn : Rat → Rat → Rat → Rat → Rat)
    (normalize : String → String) (roster : List Student) (cls : ClassGeofence) (st : StoreState)
    (sid : Nat) (enrollment : String) (lat lon : Rat) (f : String)
    (now : Int) (s : Session) (stu : Student)
    (hfind : st.sessions.find? (fun s => s.id == sid) = some s)
    (hlive : ¬(s.end_time ≤ now ∨ s.is_active = false))
    (hstu : roster.find? (fun stu => stu.enrollment_no == normalize enrollment) = some stu)
    (hpair : pairPresent st.records s.id stu.id = false)
    (hd : ¬(cls.geofence_radius < distFn lat lon cls.geofence_lat cls.geofence_lon))
    (hany : st.locks.any (fun l => l.session_id == s.id && l.fingerprint == f
        && l.student_id != stu.id) = true) :
    validateAndRecord distFn normalize true roster cls st sid enrollment lat lon (some f) now =
      .error .DeviceAlreadyUsed := by
  unfold validateAndRecord
  rw [hfind]
  dsimp only
  rw [if_neg hlive, hstu]
  dsimp only
  rw [if_neg (by simp [hpair]), if_neg hd, if_pos hany]

lemma vr_deviceMismatch (distFn : Rat → Rat → Rat → Rat → Rat)
    (normalize : String → String) (roster : List Student) (cls : ClassGeofence) (st : StoreState)
    (sid : Nat) (enrollment : String) (lat lon : Rat) (f : String)
    (now : Int) (s : Session) (stu : Student)
    (hfind : st.sessions.find? (fun s => s.id == sid) = some s)
    (hlive : ¬(s.end_time ≤ now ∨ s.is_active = false))
    (hstu : roster.find? (fun stu => stu.enrollment_no == normalize enrollment) = some stu)
    (hpair : pairPresent st.records s.id stu.id = false)
    (hd : ¬(cls.geofence_radius < distFn lat lon cls.geofence_lat cls.geofence_lon))
    (hany1 : st.locks.any (fun l => l.session_id == s.id && l.fingerprint == f
        && l.student_id != stu.id) = false)
    (hany2 : st.locks.any (fun l => l.session_id == s.id && l.student_id == stu.id
        && l.fingerprint != f) = true) :
    validateAndRecord distFn normalize true roster cls st sid enrollment lat lon (some f) now =
      .error .StudentDeviceMismatch := by
  unfold validateAndRecord
  rw [hfind]
  dsimp only
  rw [if_neg hlive, hstu]
  dsimp only
  rw [if_neg (by simp [hpair]), if_neg hd, if_neg (by simp [hany1]), if_pos hany2]

/-- C2: for a submission whose session and student resolve and that is not
a duplicate, the geofence stage accepts iff the computed distance is at
most the radius (the boundary distance = radius is accepted), and
otherwise rejects with OutOfRange carrying the computed distance; the
client-side pre-check checkLocationOnLoad draws the same inclusive
boundary. -/
theorem C2_geofence_inclusive :
    (∀ (distFn : Rat → Rat → Rat → Rat → Rat) (normalize : String → String)
        (roster : List Student)
        (cls : ClassGeofence) (st : StoreState) (sid : Nat)
        (enrollment : String) (lat lon : Rat) (now : Int) (s : Session)
        (stu : Student),
      st.sessions.find? (fun x => x.id == sid) = some s →
      ¬(s.end_time ≤ now ∨ s.is_active = false) →
      roster.find? (fun x => x.enrollment_no == normalize enrollment) = some stu →
      pairPresent st.records s.id stu.id = false →
      ((distFn lat lon cls.geofence_lat cls.geofence_lon ≤ cls.geofence_radius →
          ∃ r st', validateAndRecord distFn normalize false roster cls st sid
            enrollment lat lon none now = .ok (r, st'))
        ∧ (cls.geofence_radius < distFn lat lon cls.geofence_lat cls.geofence_lon →
            validateAndRecord distFn normalize false roster cls st sid
              enrollment lat lon none now =
              .error (.OutOfRange (distFn lat lon cls.geofence_lat cls.geofence_lon)))))
    ∧ (∀ d radius : Rat,
        (checkLocationOnLoad d radius = .showForm ↔ d ≤ radius)
        ∧ (radius < d → checkLocationOnLoad d radius = .tooFar d)) := by
  constructor
  · intro distFn normalize roster cls st sid enrollment lat lon now s stu hfind hlive hstu hpair
    constructor
    · intro hle
      exact ⟨_, _, vr_acceptNoFp distFn normalize false roster cls st sid enrollment
        lat lon now s stu hfind hlive hstu hpair (not_lt.mpr hle)⟩
    · intro hgt
      exact vr_outOfRange distFn normalize false roster cls st sid enrollment
        lat lon none now s stu hfind hlive hstu hpair hgt
  · intro d radius
    unfold checkLocationOnLoad
    by_cases h : d ≤ radius
    · constructor
      · simp [h]
      · intro hlt
        exact absurd h (not_le.mpr hlt)
    · constructor
      · simp [h]
      · intro _
        rw [if_neg h]

/-- Concrete fixtures used by the witnesses below: one session of class 1
open from time 0 to 1800, one enrolled student, an 80 m geofence. -/
def sampleSession : Session :=
  { id := 1, class_id := 1, token := "tok", start_time := 0,
    end_time := 1800, is_active := true }

/-- Fixture: the 80 m geofence of class 1, centred at the origin. -/
def sampleClass : ClassGeofence :=
  { id := 1, geofence_lat := 0, geofence_lon := 0, geofence_radius := 80 }

/-- Fixture: one enrolled student. -/
def sampleStudent : Student :=
  { id := 7, enrollment_no := "Y24120001" }

/-- Fixture: store holding only the sample session. -/
def sampleState : StoreState :=
  { sessions := [sampleSession], records := [], locks := [] }

/-- Witness for C2_geofence_inclusive: the sample student 50 m from the
centre of the 80 m geofence is accepted; 200 m away the submission is
rejected with OutOfRange 200; the boundary distance 80 m itself passes the
client-side pre-check. -/
theorem C2_geofence_inclusive_witness :
    (∃ r st', validateAndRecord (fun _ _ _ _ => (50 : Rat)) (fun e => e) false
        [sampleStudent] sampleClass sampleState
        1 "Y24120001" 0 0 none 100 = .ok (r, st'))
    ∧ validateAndRecord (fun _ _ _ _ => (200 : Rat)) (fun e => e) false
        [sampleStudent] sampleClass sampleState
        1 "Y24120001" 0 0 none 100 = .error (.OutOfRange 200)
    ∧ checkLocationOnLoad 80 80 = .showForm := by
  refine ⟨?_, ?_, ?_⟩
  · exact (C2_geofence_inclusive.1 (fun _ _ _ _ => (50 : Rat)) (fun e => e)
      [sampleStudent] sampleClass sampleState 1 "Y24120001" 0 0 100
      sampleSession sampleStudent
      (by decide) (by decide) (by decide) (by decide)).1
      (by norm_num [sampleClass])
  · exact (C2_geofence_inclusive.1 (fun _ _ _ _ => (200 : Rat)) (fun e => e)
      [sampleStudent] sampleClass sampleState 1 "Y24120001" 0 0 100
      sampleSession sampleStudent
      (by decide) (by decide) (by decide) (by decide)).2
      (by norm_num [sampleClass])
  · exact (C2_geofence_inclusive.2 80 80).1.mpr le_rfl

/-- C5: expiry is lazy — getActiveSession only ever returns a session of
the class with is_active = true and end_time > now, and a submission
against a session whose end_time has passed is rejected with
SessionExpired even when is_active is still true; no operation of the
model mutates a session on the expiry path. -/
theorem C5_lazy_expiry :
    (∀ (sessions : List Session) (cid : Nat) (now : Int) (s : Session),
      getActiveSession sessions cid now = some s →
      s ∈ sessions ∧ s.class_id = cid ∧ s.is_active = true ∧ now < s.end_time)
    ∧ (∀ (distFn : Rat → Rat → Rat → Rat → Rat) (normalize : String → String)
        (dce : Bool)
        (roster : List Student) (cls : ClassGeofence) (st : StoreState)
        (sid : Nat) (enrollment : String) (lat lon : Rat) (fp : Option String)
        (now : Int) (s : Session),
        st.sessions.find? (fun x => x.id == sid) = some s →
        s.end_time ≤ now →
        validateAndRecord distFn normalize dce roster cls st sid enrollment lat lon fp now =
          .error .SessionExpired) := by
  constructor
  · intro sessions cid now s h
    have hmem : s ∈ sessions := List.mem_of_find?_eq_some h
    have hp := List.find?_some h
    simp only [Bool.and_eq_true, beq_iff_eq, decide_eq_true_eq] at hp
    exact ⟨hmem, hp.1.1, hp.1.2, hp.2⟩
  · intro distFn normalize dce roster cls st sid enrollment lat lon fp now s hfind hexp
    exact vr_sessionExpired distFn normalize dce roster cls st sid enrollment lat lon
      fp now s hfind (Or.inl hexp)

/-- Witness for C5_lazy_expiry: the active session of class 1 at time 100
is the stored one, and a submission at time 2000 against the session whose
end_time is 1800 — with is_active still true — is SessionExpired. -/
theorem C5_lazy_expiry_witness :
    (sampleSession ∈ [sampleSession] ∧ sampleSession.class_id = 1
      ∧ sampleSession.is_active = true ∧ (100 : Int) < sampleSession.end_time)
    ∧ validateAndRecord (fun _ _ _ _ => (0 : Rat)) (fun e => e) false []
        sampleClass sampleState 1 "x" 0 0 none 2000 = .error .SessionExpired := by
  constructor
  · exact C5_lazy_expiry.1 [sampleSession] 1 100 sampleSession (by decide)
  · exact C5_lazy_expiry.2 (fun _ _ _ _ => (0 : Rat)) (fun e => e) false []
      sampleClass sampleState 1 "x" 0 0 none 2000 sampleSession
      (by decide) (by decide)

lemma getActiveSession_isSome_iff (sessions : List Session) (cid : Nat)
    (now : Int) :
    (getActiveSession sessions cid now).isSome = true ↔
      ∃ s ∈ sessions, s.class_id = cid ∧ s.is_active = true ∧ now < s.end_time := by
  unfold getActiveSession
  rw [find?_isSome_iff]
  constructor
  · rintro ⟨x, hx, hp⟩
    simp only [Bool.and_eq_true, beq_iff_eq, decide_eq_true_eq] at hp
    exact ⟨x, hx, hp.1.1, hp.1.2, hp.2⟩
  · rintro ⟨x, hx, h1, h2, h3⟩
    exact ⟨x, hx, by simp [h1, h2, h3]⟩

/-- C4: startSession fails with ConflictError exactly when an active,
non-expired session for the class exists; on success the new session has
the given token, start_time = now, end_time = now + duration and
is_active = true, token uniqueness is preserved for a fresh token, and any
second start attempted while the first session is still running fails with
ConflictError. -/
theorem C4_startSession_exclusive :
    ∀ (sessions : List Session) (cid : Nat) (now dur : Int) (newId : Nat)
      (tok : String),
      (startSession sessions cid now dur newId tok = .error .ConflictError ↔
        ∃ s ∈ sessions, s.class_id = cid ∧ s.is_active = true ∧ now < s.end_time)
      ∧ (∀ s rest, startSession sessions cid now dur newId tok = .ok (s, rest) →
          s.token = tok ∧ s.start_time = now ∧ s.end_time = now + dur
            ∧ s.is_active = true ∧ rest = s :: sessions
            ∧ (tok ∉ sessions.map Session.token →
                (sessions.map Session.token).Nodup →
                (rest.map Session.token).Nodup))
      ∧ (∀ s rest (now2 dur2 : Int) (id2 : Nat) (tok2 : String),
          startSession sessions cid now dur newId tok = .ok (s, rest) →
          now2 < now + dur →
          startSession rest cid now2 dur2 id2 tok2 = .error .ConflictError) := by
  intro sessions cid now dur newId tok
  refine ⟨⟨?_, ?_⟩, ?_, ?_⟩
  · intro herr
    apply (getActiveSession_isSome_iff sessions cid now).mp
    unfold startSession at herr
    cases hga : getActiveSession sessions cid now with
    | none => rw [hga] at herr; simp at herr
    | some s => rfl
  · intro hex
    obtain ⟨x, hx⟩ := Option.isSome_iff_exists.mp
      ((getActiveSession_isSome_iff sessions cid now).mpr hex)
    unfold startSession
    rw [hx]
  · intro s rest hok
    unfold startSession at hok
    cases hga : getActiveSession sessions cid now with
    | some s0 => rw [hga] at hok; simp at hok
    | none =>
      rw [hga] at hok
      simp only [Except.ok.injEq, Prod.mk.injEq] at hok
      obtain ⟨hs, hrest⟩ := hok
      subst hs
      refine ⟨rfl, rfl, rfl, rfl, hrest.symm, ?_⟩
      intro hnotin hnodup
      rw [← hrest, List.map_cons]
      exact List.nodup_cons.mpr ⟨hnotin, hnodup⟩
  · intro s rest now2 dur2 id2 tok2 hok hlt
    unfold startSession at hok
    cases hga : getActiveSession sessions cid now with
    | some s0 => rw [hga] at hok; simp at hok
    | none =>
      rw [hga] at hok
      simp only [Except.ok.injEq, Prod.mk.injEq] at hok
      obtain ⟨hs, hrest⟩ := hok
      subst hs
      unfold startSession getActiveSession
      rw [← hrest, List.find?_cons_of_pos _ (by simp [hlt])]

/-- Witness for C4_startSession_exclusive: starting on an empty store at
time 0 with duration 1800 yields exactly the sample session, and a second
start at time 100 against the resulting store is ConflictError. -/
theorem C4_startSession_exclusive_witness :
    (sampleSession.token = "tok" ∧ sampleSession.start_time = 0
      ∧ sampleSession.end_time = 0 + 1800 ∧ sampleSession.is_active = true
      ∧ [sampleSession] = sampleSession :: []
      ∧ ("tok" ∉ ([] : List Session).map Session.token →
          (([] : List Session).map Session.token).Nodup →
          ([sampleSession].map Session.token).Nodup))
    ∧ startSession [sampleSession] 1 100 1800 2 "tok2" =
        .error .ConflictError := by
  constructor
  · exact (C4_startSession_exclusive [] 1 0 1800 1 "tok").2.1
      sampleSession [sampleSession] (by decide)
  · exact (C4_startSession_exclusive [] 1 0 1800 1 "tok").2.2
      sampleSession [sampleSession] 100 1800 2 "tok2" (by decide) (by decide)

/-- C6: the pipeline evaluates its stages in the fixed order session
resolution, student resolution, duplicate check, geofence check, device
check, commit, returning the reason of the first failing stage: an unknown
session is SessionNotFound whatever else is wrong, an expired session is
SessionExpired even for an unknown student, an unknown student is
StudentNotFound before any distance is consulted, an already-marked
student is AlreadyMarked with the distance function never influencing the
outcome, and an out-of-range submission is OutOfRange even when a
conflicting device lock exists. -/
theorem C6_stage_order :
    (∀ (distFn : Rat → Rat → Rat → Rat → Rat) (normalize : String → String)
        (dce : Bool) (roster : List Student) (cls : ClassGeofence)
        (st : StoreState) (sid : Nat) (enrollment : String) (lat lon : Rat)
        (fp : Option String) (now : Int),
      st.sessions.find? (fun x => x.id == sid) = none →
      validateAndRecord distFn normalize dce roster cls st sid enrollment
        lat lon fp now = .error .SessionNotFound)
    ∧ (∀ (distFn : Rat → Rat → Rat → Rat → Rat) (normalize : String → String)
        (dce : Bool) (roster : List Student) (cls : ClassGeofence)
        (st : StoreState) (sid : Nat) (enrollment : String) (lat lon : Rat)
        (fp : Option String) (now : Int) (s : Session),
      st.sessions.find? (fun x => x.id == sid) = some s →
      (s.end_time ≤ now ∨ s.is_active = false) →
      validateAndRecord distFn normalize dce roster cls st sid enrollment
        lat lon fp now = .error .SessionExpired)
    ∧ (∀ (distFn : Rat → Rat → Rat → Rat → Rat) (normalize : String → String)
        (dce : Bool) (roster : List Student) (cls : ClassGeofence)
        (st : StoreState) (sid : Nat) (enrollment : String) (lat lon : Rat)
        (fp : Option String) (now : Int) (s : Session),
      st.sessions.find? (fun x => x.id == sid) = some s →
      ¬(s.end_time ≤ now ∨ s.is_active = false) →
      roster.find? (fun x => x.enrollment_no == normalize enrollment) = none →
      validateAndRecord distFn normalize dce roster cls st sid enrollment
        lat lon fp now = .error .StudentNotFound)
    ∧ (∀ (distFn1 distFn2 : Rat → Rat → Rat → Rat → Rat)
        (normalize : String → String)
        (dce : Bool) (roster : List Student) (cls : ClassGeofence)
        (st : StoreState) (sid : Nat) (enrollment : String) (lat lon : Rat)
        (fp : Option String) (now : Int) (s : Session) (stu : Student),
      st.sessions.find? (fun x => x.id == sid) = some s →
      ¬(s.end_time ≤ now ∨ s.is_active = false) →
      roster.find? (fun x => x.enrollment_no == normalize enrollment) = some stu →
      pairPresent st.records s.id stu.id = true →
      validateAndRecord distFn1 normalize dce roster cls st sid enrollment
          lat lon fp now = .error .AlreadyMarked
        ∧ validateAndRecord distFn1 normalize dce roster cls st sid enrollment
            lat lon fp now =
          validateAndRecord distFn2 normalize dce roster cls st sid enrollment
            lat lon fp now)
    ∧ (∀ (distFn : Rat → Rat → Rat → Rat → Rat) (normalize : String → String)
        (roster : List Student) (cls : ClassGeofence)
        (st : StoreState) (sid : Nat) (enrollment : String) (lat lon : Rat)
        (f : String) (now : Int) (s : Session) (stu : Student),
      st.sessions.find? (fun x => x.id == sid) = some s →
      ¬(s.end_time ≤ now ∨ s.is_active = false) →
      roster.find? (fun x => x.enrollment_no == normalize enrollment) = some stu →
      pairPresent st.records s.id stu.id = false →
      cls.geofence_radius < distFn lat lon cls.geofence_lat cls.geofence_lon →
      validateAndRecord distFn normalize true roster cls st sid enrollment
        lat lon (some f) now =
        .error (.OutOfRange (distFn lat lon cls.geofence_lat cls.geofence_lon))) := by
  refine ⟨?_, ?_, ?_, ?_, ?_⟩
  · intro distFn normalize dce roster cls st sid enrollment lat lon fp now hfind
    exact vr_sessionNotFound distFn normalize dce roster cls st sid
      enrollment lat lon fp now hfind
  · intro distFn normalize dce roster cls st sid enrollment lat lon fp now s
      hfind hexp
    exact vr_sessionExpired distFn normalize dce roster cls st sid
      enrollment lat lon fp now s hfind hexp
  · intro distFn normalize dce roster cls st sid enrollment lat lon fp now s
      hfind hlive hstu
    exact vr_studentNotFound distFn normalize dce roster cls st sid
      enrollment lat lon fp now s hfind hlive hstu
  · intro distFn1 distFn2 normalize dce roster cls st sid enrollment lat lon
      fp now s stu hfind hlive hstu hpair
    have h1 := vr_alreadyMarked distFn1 normalize dce roster cls st sid
      enrollment lat lon fp now s stu hfind hlive hstu hpair
    have h2 := vr_alreadyMarked distFn2 normalize dce roster cls st sid
      enrollment lat lon fp now s stu hfind hlive hstu hpair
    exact ⟨h1, by rw [h1, h2]⟩
  · intro distFn normalize roster cls st sid enrollment lat lon f now s stu
      hfind hlive hstu hpair hd
    exact vr_outOfRange distFn normalize true roster cls st sid
      enrollment lat lon (some f) now s stu hfind hlive hstu hpair hd

/-- Fixture: store where the sample student is already marked for the
sample session. -/
def markedState : StoreState :=
  { sessions := [sampleSession],
    records := [{ session_id := 1, student_id := 7, timestamp := 10,
                  latitude := 0, longitude := 0 }],
    locks := [] }

/-- Witness for C6_stage_order: at time 2000 (session expired, roster
empty, so the student is also unknown) the answer is SessionExpired; an
already-marked student gets AlreadyMarked under a distance function
reporting 0 m and the outcome is identical under one reporting 1000 m. -/
theorem C6_stage_order_witness :
    validateAndRecord (fun _ _ _ _ => (0 : Rat)) (fun e => e) false []
        sampleClass sampleState 1 "zz" 0 0 none 2000 = .error .SessionExpired
    ∧ (validateAndRecord (fun _ _ _ _ => (0 : Rat)) (fun e => e) false
          [sampleStudent] sampleClass markedState 1 "Y24120001" 0 0 none 100 =
          .error .AlreadyMarked
        ∧ validateAndRecord (fun _ _ _ _ => (0 : Rat)) (fun e => e) false
            [sampleStudent] sampleClass markedState 1 "Y24120001" 0 0 none 100 =
          validateAndRecord (fun _ _ _ _ => (1000 : Rat)) (fun e => e) false
            [sampleStudent] sampleClass markedState 1 "Y24120001" 0 0 none 100) := by
  constructor
  · exact C6_stage_order.2.1 (fun _ _ _ _ => (0 : Rat)) (fun e => e) false []
      sampleClass sampleState 1 "zz" 0 0 none 2000 sampleSession
      (by decide) (by decide)
  · exact C6_stage_order.2.2.2.1 (fun _ _ _ _ => (0 : Rat))
      (fun _ _ _ _ => (1000 : Rat)) (fun e => e) false
      [sampleStudent] sampleClass markedState 1 "Y24120001" 0 0 none 100
      sampleSession sampleStudent (by decide) (by decide) (by decide) (by decide)

lemma endOne_idem (sid : Nat) (s : Session) :
    endOne sid (endOne sid s) = endOne sid s := by
  unfold endOne
  by_cases h : s.id == sid
  · simp [h]
  · simp [h]

/-- C7: endSession is idempotent and touches nothing but is_active — the
second call changes nothing, every row with the addressed id ends up with
is_active = false after either call, and endOne preserves every other
field of every row; endSession is total, so no call produces an error. -/
theorem C7_endSession_idempotent :
    ∀ (sessions : List Session) (sid : Nat),
      endSession (endSession sessions sid) sid = endSession sessions sid
      ∧ (∀ s ∈ endSession sessions sid, s.id = sid → s.is_active = false)
      ∧ (∀ s : Session, (endOne sid s).id = s.id
          ∧ (endOne sid s).class_id = s.class_id
          ∧ (endOne sid s).token = s.token
          ∧ (endOne sid s).start_time = s.start_time
          ∧ (endOne sid s).end_time = s.end_time) := by
  intro sessions sid
  refine ⟨?_, ?_, ?_⟩
  · unfold endSession
    rw [List.map_map]
    have hcomp : endOne sid ∘ endOne sid = endOne sid :=
      funext fun s => endOne_idem sid s
    rw [hcomp]
  · intro s hs hid
    obtain ⟨t, ht, rfl⟩ := List.mem_map.mp hs
    unfold endOne at hid ⊢
    by_cases h : t.id == sid
    · simp [h]
    · rw [if_neg h] at hid ⊢
      have hne : t.id ≠ sid := by simpa using h
      exact absurd hid hne
  · intro s
    unfold endOne
    by_cases h : s.id == sid <;> simp [h]

/-- Witness for C7_endSession_idempotent on a two-session store: ending
session 1 twice equals ending it once, the ended row is inactive, and
endOne preserves the sample session's other fields. -/
theorem C7_endSession_idempotent_witness :
    endSession (endSession [sampleSession] 1) 1 = endSession [sampleSession] 1
    ∧ ((endOne 1 sampleSession).id = sampleSession.id
        ∧ (endOne 1 sampleSession).class_id = sampleSession.class_id
        ∧ (endOne 1 sampleSession).token = sampleSession.token
        ∧ (endOne 1 sampleSession).start_time = sampleSession.start_time
        ∧ (endOne 1 sampleSession).end_time = sampleSession.end_time) := by
  constructor
  · exact (C7_endSession_idempotent [sampleSession] 1).1
  · exact (C7_endSession_idempotent [sampleSession] 1).2.2 sampleSession

lemma insertLock_some {locks locks' : List FingerprintLock}
    {l : FingerprintLock} (h : insertLock locks l = some locks') :
    lockStudentTaken locks l.session_id l.student_id = false
    ∧ lockFingerprintTaken locks l.session_id l.fingerprint = false
    ∧ locks' = l :: locks := by
  unfold insertLock at h
  cases ha : lockStudentTaken locks l.session_id l.student_id with
  | true => rw [ha] at h; simp at h
  | false =>
    cases hb : lockFingerprintTaken locks l.session_id l.fingerprint with
    | true => rw [ha, hb] at h; simp at h
    | false =>
      rw [ha, hb] at h
      simp at h
      exact ⟨rfl, rfl, h.symm⟩

lemma locksReachable_student_le_one {locks : List FingerprintLock}
    (h : LocksReachable locks) (sid stid : Nat) :
    locks.countP (fun l => l.session_id == sid && l.student_id == stid) ≤ 1 := by
  induction h with
  | empty => simp
  | step hr hins ih =>
    obtain ⟨hg, _, rfl⟩ := insertLock_some hins
    refine countP_insert_le_one _ _ _ ?_ ih
    intro hp
    obtain ⟨e1, e2⟩ : _ ∧ _ := by simpa [Bool.and_eq_true, beq_iff_eq] using hp
    subst e1; subst e2
    exact countP_eq_zero_of_any_false _ _ hg
  | remove p hr ih =>
    exact le_trans (countP_filter_le _ _ _) ih

lemma locksReachable_fingerprint_le_one {locks : List FingerprintLock}
    (h : LocksReachable locks) (sid : Nat) (f : String) :
    locks.countP (fun l => l.session_id == sid && l.fingerprint == f) ≤ 1 := by
  induction h with
  | empty => simp
  | step hr hins ih =>
    obtain ⟨_, hg, rfl⟩ := insertLock_some hins
    refine countP_insert_le_one _ _ _ ?_ ih
    intro hp
    obtain ⟨e1, e2⟩ : _ ∧ _ := by simpa [Bool.and_eq_true, beq_iff_eq] using hp
    subst e1; subst e2
    exact countP_eq_zero_of_any_false _ _ hg
  | remove p hr ih =>
    exact le_trans (countP_filter_le _ _ _) ih

/-- C8: with fingerprinting enabled, every reachable state of
session_device_fingerprints carries at most one row per
(session_id, student_id) and per (session_id, fingerprint), and a
submission violating either lock fails with DeviceAlreadyUsed (same
fingerprint under a different student) or StudentDeviceMismatch (same
student under a different fingerprint) respectively. -/
theorem C8_device_lock_unique :
    (∀ locks, LocksReachable locks → ∀ sid stid : Nat,
        locks.countP (fun l => l.session_id == sid && l.student_id == stid) ≤ 1)
    ∧ (∀ locks, LocksReachable locks → ∀ (sid : Nat) (f : String),
        locks.countP (fun l => l.session_id == sid && l.fingerprint == f) ≤ 1)
    ∧ (∀ (distFn : Rat → Rat → Rat → Rat → Rat) (normalize : String → String)
        (roster : List Student) (cls : ClassGeofence) (st : StoreState)
        (sid : Nat) (enrollment : String) (lat lon : Rat) (f : String)
        (now : Int) (s : Session) (stu : Student),
      st.sessions.find? (fun x => x.id == sid) = some s →
      ¬(s.end_time ≤ now ∨ s.is_active = false) →
      roster.find? (fun x => x.enrollment_no == normalize enrollment) = some stu →
      pairPresent st.records s.id stu.id = false →
      ¬(cls.geofence_radius < distFn lat lon cls.geofence_lat cls.geofence_lon) →
      st.locks.any (fun l => l.session_id == s.id && l.fingerprint == f
          && l.student_id != stu.id) = true →
      validateAndRecord distFn normalize true roster cls st sid enrollment
        lat lon (some f) now = .error .DeviceAlreadyUsed)
    ∧ (∀ (distFn : Rat → Rat → Rat → Rat → Rat) (normalize : String → String)
        (roster : List Student) (cls : ClassGeofence) (st : StoreState)
        (sid : Nat) (enrollment : String) (lat lon : Rat) (f : String)
        (now : Int) (s : Session) (stu : Student),
      st.sessions.find? (fun x => x.id == sid) = some s →
      ¬(s.end_time ≤ now ∨ s.is_active = false) →
      roster.find? (fun x => x.enrollment_no == normalize enrollment) = some stu →
      pairPresent st.records s.id stu.id = false →
      ¬(cls.geofence_radius < distFn lat lon cls.geofence_lat cls.geofence_lon) →
      st.locks.any (fun l => l.session_id == s.id && l.fingerprint == f
          && l.student_id != stu.id) = false →
      st.locks.any (fun l => l.session_id == s.id && l.student_id == stu.id
          && l.fingerprint != f) = true →
      validateAndRecord distFn normalize true roster cls st sid enrollment
        lat lon (some f) now = .error .StudentDeviceMismatch) := by
  refine ⟨?_, ?_, ?_, ?_⟩
  · intro locks h sid stid
    exact locksReachable_student_le_one h sid stid
  · intro locks h sid f
    exact locksReachable_fingerprint_le_one h sid f
  · intro distFn normalize roster cls st sid enrollment lat lon f now s stu
      hfind hlive hstu hpair hd hany
    exact vr_deviceAlreadyUsed distFn normalize roster cls st sid enrollment
      lat lon f now s stu hfind hlive hstu hpair hd hany
  · intro distFn normalize roster cls st sid enrollment lat lon f now s stu
      hfind hlive hstu hpair hd hany1 hany2
    exact vr_deviceMismatch distFn normalize roster cls st sid enrollment
      lat lon f now s stu hfind hlive hstu hpair hd hany1 hany2

/-- Fixture: store where, in the sample session, student 9 already holds
fingerprint fpA. -/
def lockedState : StoreState :=
  { sessions := [sampleSession], records := [],
    locks := [{ session_id := 1, student_id := 9, fingerprint := "fpA" }] }

/-- Fixture: store where, in the sample session, the sample student (id 7)
already holds fingerprint fpB. -/
def mismatchState : StoreState :=
  { sessions := [sampleSession], records := [],
    locks := [{ session_id := 1, student_id := 7, fingerprint := "fpB" }] }

/-- Witness for C8_device_lock_unique: the invariants hold at the empty
table; student 7 submitting fingerprint fpA fails DeviceAlreadyUsed when
student 9 holds fpA, and fails StudentDeviceMismatch when student 7
already holds fpB. -/
theorem C8_device_lock_unique_witness :
    ([] : List FingerprintLock).countP
        (fun l => l.session_id == 1 && l.student_id == 7) ≤ 1
    ∧ validateAndRecord (fun _ _ _ _ => (50 : Rat)) (fun e => e) true
        [sampleStudent] sampleClass lockedState 1 "Y24120001" 0 0
        (some "fpA") 100 = .error .DeviceAlreadyUsed
    ∧ validateAndRecord (fun _ _ _ _ => (50 : Rat)) (fun e => e) true
        [sampleStudent] sampleClass mismatchState 1 "Y24120001" 0 0
        (some "fpA") 100 = .error .StudentDeviceMismatch := by
  refine ⟨?_, ?_, ?_⟩
  · exact C8_device_lock_unique.1 [] LocksReachable.empty 1 7
  · exact C8_device_lock_unique.2.2.1 (fun _ _ _ _ => (50 : Rat)) (fun e => e)
      [sampleStudent] sampleClass lockedState 1 "Y24120001" 0 0 "fpA" 100
      sampleSession sampleStudent
      (by decide) (by decide) (by decide) (by decide) (by norm_num [sampleClass])
      (by decide)
  · exact C8_device_lock_unique.2.2.2 (fun _ _ _ _ => (50 : Rat)) (fun e => e)
      [sampleStudent] sampleClass mismatchState 1 "Y24120001" 0 0 "fpA" 100
      sampleSession sampleStudent
      (by decide) (by decide) (by decide) (by decide) (by norm_num [sampleClass])
      (by decide) (by decide)

lemma insertDailyIp_some {rows rows' : List DailyIp} {ip : String} {d : Int}
    (h : insertDailyIp rows ip d = some rows') :
    ipPresent rows ip d = false
    ∧ rows' = { ip_address := ip, date := d } :: rows := by
  unfold insertDailyIp at h
  cases hp : ipPresent rows ip d with
  | true => rw [hp] at h; simp at h
  | false =>
    rw [hp] at h
    simp at h
    exact ⟨rfl, h.symm⟩

/-- C9: daily_attendance_ips enforces at most one attendance submission
row per IP address per calendar day — every reachable state holds at most
one row per (ip_address, date), and once a row for an (ip_address, date)
is in, a second insert for the same pair (for example a second, distinct
student submitting from the same shared IP on the same day) is rejected. -/
theorem C9_one_ip_per_day :
    (∀ rows, IpsReachable rows → ∀ (ip : String) (d : Int),
        rows.countP (fun r => r.ip_address == ip && r.date == d) ≤ 1)
    ∧ (∀ (rows rows' : List DailyIp) (ip : String) (d : Int),
        insertDailyIp rows ip d = some rows' →
        insertDailyIp rows' ip d = none) := by
  constructor
  · intro rows h ip d
    induction h with
    | empty => simp
    | step hr hins ih =>
      obtain ⟨hg, rfl⟩ := insertDailyIp_some hins
      refine countP_insert_le_one _ _ _ ?_ ih
      intro hp
      obtain ⟨e1, e2⟩ : _ ∧ _ := by
        simpa [Bool.and_eq_true, beq_iff_eq] using hp
      subst e1; subst e2
      exact countP_eq_zero_of_any_false _ _ hg
    | remove p hr ih =>
      exact le_trans (countP_filter_le _ _ _) ih
  · intro rows rows' ip d h
    obtain ⟨_, rfl⟩ := insertDailyIp_some h
    unfold insertDailyIp
    rw [if_pos (by simp [ipPresent])]

/-- Witness for C9_one_ip_per_day: the invariant at the empty table, and a
second same-day insert for IP 10.0.0.1 rejected after the first one
succeeded. -/
theorem C9_one_ip_per_day_witness :
    ([] : List DailyIp).countP
        (fun r => r.ip_address == "10.0.0.1" && r.date == 20250101) ≤ 1
    ∧ insertDailyIp [{ ip_address := "10.0.0.1", date := 20250101 }]
        "10.0.0.1" 20250101 = none := by
  constructor
  · exact C9_one_ip_per_day.1 [] IpsReachable.empty "10.0.0.1" 20250101
  · exact C9_one_ip_per_day.2 [] [{ ip_address := "10.0.0.1", date := 20250101 }]
      "10.0.0.1" 20250101 (by decide)

/-- C10: the canvas fingerprint is deterministic and input-independent:
getCanvasFingerprint takes no parameters and renders a fixed op list on a
fresh canvas, so in a fixed rendering environment the device_fingerprint
field submitted by handleAttendanceSubmit is the same string whatever the
student, session or coordinates of the two submissions. -/
theorem C10_fingerprint_input_independent :
    ∀ (render : List CanvasOp → String) (e1 e2 : String) (s1 s2 : Nat)
      (la1 lo1 la2 lo2 : Rat),
      (buildSubmissionForm render e1 s1 la1 lo1).device_fingerprint =
        (buildSubmissionForm render e2 s2 la2 lo2).device_fingerprint
      ∧ (buildSubmissionForm render e1 s1 la1 lo1).device_fingerprint =
          render fingerprintCanvasOps := by
  intro render e1 e2 s1 s2 la1 lo1 la2 lo2
  exact ⟨rfl, rfl⟩

end Attendance
